import Mathlib

/-!
Verification of the markdown template validator, the catalog control merge
and the xccdf task outcome handling of compliance-trestle.

The heading-sequence validator (`MarkdownValidator._validate_headers`),
the YAML header key comparison (`MarkdownValidator.compare_keys`) and the
top-level `MarkdownValidator.is_valid_against_template` are embedded from
`trestle/core/markdown/markdown_validator.py`.  The substitution-placeholder
matcher, the markdown tree query surface, the control merge and parameter
display resolution are modelled from the specification, because their source
modules (`markdown_const.py`, `markdown_node.py`, `catalog_interface.py`,
`control_io.py`) are not part of the source set.
-/

/-- Modelled from the spec: the configured substitution-placeholder matcher
used by `_validate_headers` as
`re.search(md_const.SUBSTITUTION_REGEX, text) is not None`.
`markdown_const.py` is missing from the sources; the spec describes the
matcher as a placeholder-detection pattern recognising headings that denote
a variable slot, written with brace delimiters (for example a heading text of
the shape open-brace open-brace name close-brace close-brace).  A heading
matches iff it contains an opening brace character followed, later in the
text, by a closing brace character. -/
def hasBracePair : List Char → Bool
  | [] => false
  | c :: rest =>
    if c = Char.ofNat 123 then rest.contains (Char.ofNat 125) || hasBracePair rest
    else hasBracePair rest

/-- Modelled from the spec: placeholder detection on heading text. -/
def isSubstitution (s : String) : Bool :=
  hasBracePair s.toList

/-- The loop of `MarkdownValidator._validate_headers`
(`markdown_validator.py` lines 163-173): walk the instance keys keeping a
pointer into the template keys.  Returns `none` when the loop hits the
`return False` branch (an instance key occurs in the template but differs
from the template key at the pointer), and `some p` with the final pointer
value when the walk finishes (including the `break` once the pointer has
reached the end of the template). -/
def headerWalk (isSub : String → Bool) (template : List String) :
    Nat → List String → Option Nat
  | p, [] => some p
  | p, key :: rest =>
    if template.length ≤ p then some p
    else if template.contains key && !(key == template.getD p "") then none
    else if template.contains key && (key == template.getD p "") then
      headerWalk isSub template (p + 1) rest
    else if isSub (template.getD p "") then
      headerWalk isSub template (p + 1) rest
    else
      headerWalk isSub template p rest

/-- `MarkdownValidator._validate_headers` (`markdown_validator.py` lines
158-178): reject when the template has more keys than the instance, then
walk the instance keys, and finally require the pointer to have reached the
end of the template. -/
def validate_headers (isSub : String → Bool)
    (template instanceKeys : List String) : Bool :=
  if template.length > instanceKeys.length then false
  else
    match headerWalk isSub template 0 instanceKeys with
    | none => false
    | some p => p == template.length

example : isSubstitution "\x7b\x7bvar\x7d\x7d" = true := by decide
example : isSubstitution "A" = false := by decide
example :
    validate_headers isSubstitution ["A", "\x7b\x7bvar\x7d\x7d", "C"] ["A", "C"] = false := by
  decide
example :
    validate_headers isSubstitution ["A", "\x7b\x7bvar\x7d\x7d", "C"] ["A", "X", "C"] = true := by
  decide
example :
    validate_headers isSubstitution ["A", "B", "C"] ["A", "B", "X", "C"] = true := by decide
example :
    validate_headers isSubstitution ["A", "B", "C"] ["A", "C", "B"] = false := by decide

theorem headerWalk_complete (isSub : String → Bool) (template : List String)
    (hsub : ∀ k ∈ template, isSub k = false) :
    ∀ (rest : List String) (p : Nat), p ≤ template.length →
      rest.filter (fun k => template.contains k) = template.drop p →
      headerWalk isSub template p rest = some template.length := by
  intro rest
  induction rest with
  | nil =>
    intro p hp hf
    simp only [List.filter_nil] at hf
    have hle : template.length ≤ p := List.drop_eq_nil_iff.mp hf.symm
    have hpe : p = template.length := le_antisymm hp hle
    simp [headerWalk, hpe]
  | cons key tail ih =>
    intro p hp hf
    by_cases hple : template.length ≤ p
    · have hpe : p = template.length := le_antisymm hp hple
      simp [headerWalk, hple, hpe]
    · have hplt : p < template.length := Nat.lt_of_not_le hple
      have hdrop : template.drop p = template[p] :: template.drop (p + 1) :=
        List.drop_eq_getElem_cons hplt
      have hgetD : template.getD p "" = template[p] :=
        List.getD_eq_getElem template "" hplt
      by_cases hmem : key ∈ template
      · have hcont : template.contains key = true := by
          simpa [List.contains] using List.elem_iff.mpr hmem
        rw [List.filter_cons, if_pos hcont, hdrop] at hf
        have hkey : key = template[p] := (List.cons_eq_cons.mp hf).1
        have htail : tail.filter (fun k => template.contains k) = template.drop (p + 1) :=
          (List.cons_eq_cons.mp hf).2
        have hbeq : (key == template.getD p "") = true := by
          rw [hgetD]; exact beq_iff_eq.mpr hkey
        rw [headerWalk, if_neg hple]
        simp only [hcont, hbeq, Bool.not_true, Bool.and_false, Bool.and_true,
          Bool.true_and, Bool.false_and, if_false, if_true, ite_true, ite_false,
          Bool.false_eq_true]
        exact ih (p + 1) hplt htail
      · have hcont : template.contains key = false := by
          simpa [List.contains] using hmem
        rw [List.filter_cons, if_neg (by simpa [List.contains] using hmem)] at hf
        have hsubp : isSub (template.getD p "") = false := by
          rw [hgetD]
          exact hsub _ (template.getElem_mem hplt)
        rw [headerWalk, if_neg hple]
        simp only [hcont, hsubp, Bool.false_and, if_false, ite_false, Bool.false_eq_true]
        exact ih p hp hf

theorem headerWalk_reject (isSub : String → Bool) (template : List String)
    (p : Nat) (key : String) (rest : List String)
    (hp : p < template.length) (hmem : key ∈ template)
    (hne : key ≠ template.getD p "") :
    headerWalk isSub template p (key :: rest) = none := by
  have hcont : template.contains key = true := by
    simpa [List.contains] using hmem
  have hbeq : (key == template.getD p "") = false := by
    exact beq_eq_false_iff_ne.mpr hne
  rw [headerWalk, if_neg (Nat.not_le.mpr hp),
    if_pos (show (template.contains key && !(key == template.getD p "")) = true by
      rw [hcont, hbeq]; rfl)]

theorem validate_headers_of_walk_none (isSub : String → Bool)
    (template instKeys : List String)
    (hw : headerWalk isSub template 0 instKeys = none) :
    validate_headers isSub template instKeys = false := by
  rw [validate_headers]
  by_cases hlen : template.length > instKeys.length
  · simp [hlen]
  · simp [hlen, hw]

theorem validate_headers_of_filter (isSub : String → Bool)
    (template instKeys : List String)
    (hf : instKeys.filter (fun k => template.contains k) = template)
    (hsub : ∀ k ∈ template, isSub k = false) :
    validate_headers isSub template instKeys = true := by
  have hlen : template.length ≤ instKeys.length := by
    calc template.length
        = (instKeys.filter (fun k => template.contains k)).length := by rw [hf]
      _ ≤ instKeys.length := List.length_filter_le _ _
  have hwalk : headerWalk isSub template 0 instKeys = some template.length :=
    headerWalk_complete isSub template hsub instKeys 0 (Nat.zero_le _)
      (by simpa using hf)
  rw [validate_headers, if_neg (Nat.not_lt.mpr hlen), hwalk]
  simp

/-- C1 counterexample: with template `["A", "\x7b\x7bvar\x7d\x7d", "C"]`
(where the middle heading matches the substitution-placeholder pattern) and
instance `["A", "C"]`, `_validate_headers` returns `False`, not `True` as
claimed: the leading length check rejects a template with strictly more
headings than the instance before the walk even starts, and the walk's
placeholder branch advances the pointer only while consuming an instance
key. -/
theorem c1_counterexample :
    isSubstitution "\x7b\x7bvar\x7d\x7d" = true ∧
    validate_headers isSubstitution
      ["A", "\x7b\x7bvar\x7d\x7d", "C"] ["A", "C"] = false := by
  exact ⟨by decide, by decide⟩

/-- C1 (amended): a placeholder template heading is skipped only by
consuming one instance key that does not occur in the template: instance
`["A", "X", "C"]` validates against template
`["A", "\x7b\x7bvar\x7d\x7d", "C"]`, while instance `["A", "C"]` is
rejected (the template has strictly more headings than the instance). -/
theorem c1_placeholder_consumes_instance_key :
    validate_headers isSubstitution
      ["A", "\x7b\x7bvar\x7d\x7d", "C"] ["A", "X", "C"] = true ∧
    validate_headers isSubstitution
      ["A", "\x7b\x7bvar\x7d\x7d", "C"] ["A", "C"] = false := by
  exact ⟨by decide, by decide⟩

/-- C2 counterexample: instance `["X", "\x7b\x7bv\x7d\x7d", "B"]` contains
the template `["\x7b\x7bv\x7d\x7d", "B"]` in order with one extra heading
`"X"` interleaved (the extra heading does not even occur in the template),
yet `_validate_headers` rejects it: the placeholder at template position 0
consumes the extra key `"X"`, after which the instance key matching the
placeholder text occurs in the template but differs from the template key
at the advanced pointer. -/
theorem c2_counterexample :
    (["X", "\x7b\x7bv\x7d\x7d", "B"].filter
        (fun k => ["\x7b\x7bv\x7d\x7d", "B"].contains k) =
      ["\x7b\x7bv\x7d\x7d", "B"]) ∧
    validate_headers isSubstitution
      ["\x7b\x7bv\x7d\x7d", "B"] ["X", "\x7b\x7bv\x7d\x7d", "B"] = false := by
  exact ⟨by decide, by decide⟩

/-- C2 (amended): the ordered heading check accepts any instance whose keys
occurring in the template are exactly the template sequence in order
(extra headings not occurring in the template are tolerated), provided no
template heading matches the substitution-placeholder pattern; and it
rejects immediately when the walk meets an instance key that occurs in the
template but differs from the template key at the current pointer position
(a rejected walk makes the whole check fail). -/
theorem c2_ordered_heading_check :
    (∀ (isSub : String → Bool) (template instKeys : List String),
      instKeys.filter (fun k => template.contains k) = template →
      (∀ k ∈ template, isSub k = false) →
      validate_headers isSub template instKeys = true) ∧
    (∀ (isSub : String → Bool) (template : List String) (p : Nat)
        (key : String) (rest : List String),
      p < template.length → key ∈ template → key ≠ template.getD p "" →
      headerWalk isSub template p (key :: rest) = none) ∧
    (∀ (isSub : String → Bool) (template instKeys : List String),
      headerWalk isSub template 0 instKeys = none →
      validate_headers isSub template instKeys = false) := by
  exact ⟨validate_headers_of_filter, headerWalk_reject, validate_headers_of_walk_none⟩

/-- C2 witness: template `["A", "B", "C"]` with instance
`["A", "B", "X", "C"]` is accepted; the walk state reached on instance
`["A", "C", "B"]` (pointer 1, key `"C"`) is rejected, and the rejected walk
makes validation of `["A", "C", "B"]` fail. -/
theorem c2_witness :
    validate_headers isSubstitution ["A", "B", "C"] ["A", "B", "X", "C"] = true ∧
    headerWalk isSubstitution ["A", "B", "C"] 1 ["C", "B"] = none ∧
    validate_headers isSubstitution ["A", "B", "C"] ["A", "C", "B"] = false := by
  refine ⟨?_, ?_, ?_⟩
  · exact c2_ordered_heading_check.1 isSubstitution ["A", "B", "C"]
      ["A", "B", "X", "C"] (by decide) (by decide)
  · exact c2_ordered_heading_check.2.1 isSubstitution ["A", "B", "C"] 1 "C" ["B"]
      (by decide) (by decide) (by decide)
  · exact c2_ordered_heading_check.2.2 isSubstitution ["A", "B", "C"]
      ["A", "C", "B"] (by decide)

/-- C3: the heading-sequence check returns non-conformant whenever the
template has strictly more heading keys than the instance, and, after
walking the instance keys, returns non-conformant unless the pointer has
reached the end of the template sequence. -/
theorem c3_length_and_final_pointer :
    ∀ (isSub : String → Bool) (template instKeys : List String),
      (template.length > instKeys.length →
        validate_headers isSub template instKeys = false) ∧
      (∀ p, headerWalk isSub template 0 instKeys = some p →
        p ≠ template.length →
        validate_headers isSub template instKeys = false) := by
  intro isSub template instKeys
  constructor
  · intro hlen
    rw [validate_headers, if_pos hlen]
  · intro p hw hne
    rw [validate_headers]
    by_cases hlen : template.length > instKeys.length
    · rw [if_pos hlen]
    · rw [if_neg hlen, hw]
      simpa using hne

/-- C3 witness: template `["A", "B"]` against instance `["A"]` is rejected
by the length check, and against instance `["A", "X"]` the walk ends with
pointer 1 (not 2), so validation is rejected by the final pointer check. -/
theorem c3_witness :
    validate_headers isSubstitution ["A", "B"] ["A"] = false ∧
    validate_headers isSubstitution ["A", "B"] ["A", "X"] = false := by
  constructor
  · exact (c3_length_and_final_pointer isSubstitution ["A", "B"] ["A"]).1 (by decide)
  · exact (c3_length_and_final_pointer isSubstitution ["A", "B"] ["A", "X"]).2 1
      (by decide) (by decide)

mutual

/-- A YAML front-matter header value: a leaf (string or number) or a nested
mapping, mirroring the runtime `type(x) == dict` dispatch of
`MarkdownValidator.compare_keys`. -/
inductive Val where
  | str : String → Val
  | num : Int → Val
  | dict : Entries → Val
deriving DecidableEq

/-- An ordered key/value mapping, as parsed from YAML front matter.  Python
dict keys are unique; uniqueness is assumed where a proof needs it. -/
inductive Entries where
  | nil : Entries
  | cons : String → Val → Entries → Entries
deriving DecidableEq

end

def Entries.length : Entries → Nat
  | .nil => 0
  | .cons _ _ rest => rest.length + 1

def Entries.keys : Entries → List String
  | .nil => []
  | .cons k _ rest => k :: rest.keys

def Entries.lookup : Entries → String → Option Val
  | .nil, _ => none
  | .cons k v rest, key => if k = key then some v else rest.lookup key

def Entries.toList : Entries → List (String × Val)
  | .nil => []
  | .cons k v rest => (k, v) :: rest.toList

/-- The `for key in template.keys()` loop of `MarkdownValidator.compare_keys`
(`markdown_validator.py` lines 145-156): each template key must be present
in the candidate, and when the template value is a dict the candidate value
must be a dict accepted by the recursive `compare_keys` call (whose leading
length check is inlined here). -/
def compareEntriesLoop : Entries → Entries → Bool
  | .nil, _ => true
  | .cons k v rest, c =>
    match c.lookup k with
    | none => false
    | some w =>
      match v, w with
      | .dict tsub, .dict csub =>
        ((tsub.length == csub.length) && compareEntriesLoop tsub csub) &&
          compareEntriesLoop rest c
      | .dict _, _ => false
      | _, _ => compareEntriesLoop rest c

/-- `MarkdownValidator.compare_keys` (`markdown_validator.py` lines
132-156): equal key counts, then the loop over the template keys. -/
def compare_keys (t c : Entries) : Bool :=
  (t.length == c.length) && compareEntriesLoop t c

theorem Entries.lookup_isSome_iff_mem_keys :
    ∀ (c : Entries) (k : String), (c.lookup k).isSome = true ↔ k ∈ c.keys
  | .nil, k => by simp [Entries.lookup, Entries.keys]
  | .cons k2 v rest, k => by
    by_cases hk : k2 = k
    · subst hk
      simp [Entries.lookup, Entries.keys]
    · simp only [Entries.lookup, Entries.keys, if_neg hk, List.mem_cons,
        Entries.lookup_isSome_iff_mem_keys rest k]
      constructor
      · exact fun h => Or.inr h
      · rintro (h | h)
        · exact absurd h.symm hk
        · exact h

theorem compareEntriesLoop_iff :
    ∀ (t c : Entries), compareEntriesLoop t c = true ↔
      ∀ p ∈ t.toList, p.1 ∈ c.keys ∧
        ∀ tsub, p.2 = Val.dict tsub →
          ∃ csub, c.lookup p.1 = some (Val.dict csub) ∧
            compare_keys tsub csub = true
  | .nil, c => by simp [compareEntriesLoop, Entries.toList]
  | .cons k v rest, c => by
    have hrest := compareEntriesLoop_iff rest c
    simp only [Entries.toList, List.forall_mem_cons]
    cases hlk : c.lookup k with
    | none =>
      have hnk : k ∉ c.keys := by
        rw [← Entries.lookup_isSome_iff_mem_keys, hlk]
        simp
      simp only [compareEntriesLoop, hlk, Bool.false_eq_true, false_iff]
      rintro ⟨⟨hk, -⟩, -⟩
      exact hnk hk
    | some w =>
      have hmem : k ∈ c.keys := by
        rw [← Entries.lookup_isSome_iff_mem_keys, hlk]
        rfl
      cases v with
      | str s =>
        cases w
        all_goals
          simp only [compareEntriesLoop, hlk, hrest]
          exact ⟨fun h => ⟨⟨hmem, fun tsub h2 => nomatch h2⟩, h⟩, fun h => h.2⟩
      | num n =>
        cases w
        all_goals
          simp only [compareEntriesLoop, hlk, hrest]
          exact ⟨fun h => ⟨⟨hmem, fun tsub h2 => nomatch h2⟩, h⟩, fun h => h.2⟩
      | dict tsub =>
        cases w with
        | dict csub =>
          simp only [compareEntriesLoop, hlk]
          rw [show ((tsub.length == csub.length) && compareEntriesLoop tsub csub &&
              compareEntriesLoop rest c)
            = (compare_keys tsub csub && compareEntriesLoop rest c) from rfl]
          rw [Bool.and_eq_true, hrest]
          constructor
          · rintro ⟨hsub, hrestc⟩
            refine ⟨⟨hmem, ?_⟩, hrestc⟩
            intro tsub2 h
            rw [Val.dict.injEq] at h
            subst h
            exact ⟨csub, rfl, hsub⟩
          · rintro ⟨⟨-, hdict⟩, hrestc⟩
            obtain ⟨csub2, heq, hcmp⟩ := hdict tsub rfl
            simp only [Option.some.injEq, Val.dict.injEq] at heq
            subst heq
            exact ⟨hcmp, hrestc⟩
        | str s =>
          simp only [compareEntriesLoop, hlk, Bool.false_eq_true, false_iff]
          rintro ⟨⟨-, hdict⟩, -⟩
          obtain ⟨csub2, heq, -⟩ := hdict tsub rfl
          simp at heq
        | num n =>
          simp only [compareEntriesLoop, hlk, Bool.false_eq_true, false_iff]
          rintro ⟨⟨-, hdict⟩, -⟩
          obtain ⟨csub2, heq, -⟩ := hdict tsub rfl
          simp at heq

/-- C5: `compare_keys(template, candidate)` is true iff the dicts have equal
key counts, every template key is present in the candidate, and wherever the
template value is itself a dict the candidate value is a dict satisfying the
same condition recursively (leaf values are never compared); and the three
concrete examples from the spec evaluate as claimed. -/
theorem c5_compare_keys_spec :
    (∀ t c : Entries, compare_keys t c = true ↔
      (t.length = c.length ∧ ∀ p ∈ t.toList, p.1 ∈ c.keys ∧
        ∀ tsub, p.2 = Val.dict tsub →
          ∃ csub, c.lookup p.1 = some (Val.dict csub) ∧
            compare_keys tsub csub = true)) ∧
    compare_keys
      (.cons "a" (.num 1) (.cons "b" (.dict (.cons "c" (.num 2) .nil)) .nil))
      (.cons "a" (.num 9) (.cons "b" (.dict (.cons "c" (.num 7) .nil)) .nil))
      = true ∧
    compare_keys (.cons "a" (.num 1) .nil)
      (.cons "a" (.num 1) (.cons "b" (.num 2) .nil)) = false ∧
    compare_keys (.cons "a" (.dict (.cons "c" (.num 1) .nil)) .nil)
      (.cons "a" (.num 1) .nil) = false := by
  refine ⟨?_, by decide, by decide, by decide⟩
  intro t c
  rw [show compare_keys t c = ((t.length == c.length) && compareEntriesLoop t c)
      from rfl,
    Bool.and_eq_true, beq_iff_eq, compareEntriesLoop_iff]

/-- C5 witness: the characterisation applied to the first concrete example
yields its key-count equality. -/
theorem c5_witness :
    (Entries.cons "a" (.num 1)
      (.cons "b" (.dict (.cons "c" (.num 2) .nil)) .nil)).length =
    (Entries.cons "a" (.num 9)
      (.cons "b" (.dict (.cons "c" (.num 7) .nil)) .nil)).length :=
  ((c5_compare_keys_spec.1
    (Entries.cons "a" (.num 1) (.cons "b" (.dict (.cons "c" (.num 2) .nil)) .nil))
    (Entries.cons "a" (.num 9) (.cons "b" (.dict (.cons "c" (.num 7) .nil)) .nil))).mp
    (by decide)).1

/-- C9: the nesting check of `compare_keys` is not symmetric: a template
leaf paired with a candidate dict under the same key is accepted (the loop
simply moves on to the remaining keys), whereas the two concrete examples
show the reverse pairing is rejected. -/
theorem c9_leaf_vs_dict_asymmetry :
    (∀ (k : String) (v : Val) (rest c csub : Entries),
      (∀ e, v ≠ Val.dict e) → c.lookup k = some (Val.dict csub) →
      compareEntriesLoop (.cons k v rest) c = compareEntriesLoop rest c) ∧
    compare_keys (.cons "a" (.num 1) .nil)
      (.cons "a" (.dict (.cons "c" (.num 2) .nil)) .nil) = true ∧
    compare_keys (.cons "a" (.dict (.cons "c" (.num 2) .nil)) .nil)
      (.cons "a" (.num 1) .nil) = false := by
  refine ⟨?_, by decide, by decide⟩
  intro k v rest c csub hv hlk
  cases v with
  | dict e => exact absurd rfl (hv e)
  | str s => simp [compareEntriesLoop, hlk]
  | num n => simp [compareEntriesLoop, hlk]

/-- C9 witness: the general leaf-versus-dict acceptance applied to the
concrete pair from the claim. -/
theorem c9_witness :
    compareEntriesLoop (.cons "a" (.num 1) .nil)
      (.cons "a" (.dict (.cons "c" (.num 2) .nil)) .nil) =
    compareEntriesLoop .nil
      (.cons "a" (.dict (.cons "c" (.num 2) .nil)) .nil) :=
  c9_leaf_vs_dict_asymmetry.1 "a" (.num 1) .nil
    (.cons "a" (.dict (.cons "c" (.num 2) .nil)) .nil)
    (.cons "c" (.num 2) .nil) (fun e h => nomatch h) (by decide)

/-- Substring containment on character lists, used to model the Python
membership test `needle in haystack` on strings. -/
def containsSub : List Char → List Char → Bool
  | [], need => need.isEmpty
  | c :: t, need => List.isPrefixOf need (c :: t) || containsSub t need

/-- The Python string membership test `needle in haystack`. -/
def strContains (hay need : String) : Bool :=
  containsSub hay.toList need.toList

/-- Modelled from the spec: the query surface of a parsed markdown tree
(spec section 4.3).  `markdown_node.py` is missing from the sources; the
validator only queries a tree through three operations, so a tree is
modelled by that interface: `govNode key` is
`get_node_for_key(key, False)` followed by `.content.governed_document`
(`none` when the node is absent), `subnodesKeys` is
`content.subnodes_keys`, and `headersForLevel n` is
`get_all_headers_for_level(n)`. -/
structure MarkdownTree where
  govNode : String → Option (List String)
  subnodesKeys : List String
  headersForLevel : Nat → List String

/-- The state of a `MarkdownValidator` after `__init__`
(`markdown_validator.py` lines 31-48); the template path is omitted as it
is only used in log messages. -/
structure MDValidator where
  validate_yaml_header : Bool
  validate_md_body : Bool
  md_header_to_validate : Option String
  template_version : Bool
  template_header : Entries
  template_tree : MarkdownTree

/-- The header key carrying the required template version. -/
def templateVersionKey : String := "x-trestle-template-version"

/-- The template-version branch of `is_valid_against_template`
(`markdown_validator.py` lines 76-85): the version key must be present in
the template header, its value must occur in `str(instance)`, and the
header's `Version` value is compared with it; every path returns.  A
non-string version value would make the Python membership test
`value not in str(instance)` raise `TypeError`, modelled as
`Except.error`. -/
def versionCheck (v : MDValidator) (instancePath : String) : Except Unit Bool :=
  match v.template_header.lookup templateVersionKey with
  | some (.str s) =>
    if ¬ (strContains instancePath s) then Except.ok false
    else
      match v.template_header.lookup "Version" with
      | some ver => Except.ok (ver = Val.str s)
      | none => Except.ok false
  | some _ => Except.error ()
  | none => Except.ok false

/-- The YAML-header block of `is_valid_against_template`
(`markdown_validator.py` lines 75-92).  `some r` is an early exit with
result `r`; `none` falls through to the next block.  When template-version
checking is enabled every path of the version branch returns, so the
generic `compare_keys` check runs only when it is disabled. -/
def yamlHeaderBlock (v : MDValidator) (instancePath : String)
    (instanceHeader : Entries) : Option (Except Unit Bool) :=
  if v.validate_yaml_header then
    if v.template_version then some (versionCheck v instancePath)
    else
      if ¬ compare_keys v.template_header instanceHeader then
        some (Except.ok false)
      else if ¬ v.validate_md_body then some (Except.ok true)
      else none
  else none

/-- The governed-header block of `is_valid_against_template`
(`markdown_validator.py` lines 94-105).  A missing instance node returns
`False`; a missing template node makes the Python code dereference
`template_gov_node.content` on `None`, raising `AttributeError`, modelled
as `Except.error`. -/
def govHeaderBlock (v : MDValidator) (instanceTree : MarkdownTree) :
    Option (Except Unit Bool) :=
  match v.md_header_to_validate with
  | some hdr =>
    match instanceTree.govNode hdr with
    | none => some (Except.ok false)
    | some instanceKeys =>
      match v.template_tree.govNode hdr with
      | none => some (Except.error ())
      | some templateKeys =>
        if ¬ validate_headers isSubstitution templateKeys instanceKeys then
          some (Except.ok false)
        else none
  | none => none

/-- The body block of `is_valid_against_template`
(`markdown_validator.py` lines 107-128): optional template-version
re-check, heading-count check, level-1 heading-count check, then the
ordered heading walk. -/
def bodyBlock (v : MDValidator) (instancePath : String)
    (instanceTree : MarkdownTree) : Option (Except Unit Bool) :=
  if v.validate_md_body then
    let instanceKeys := instanceTree.subnodesKeys
    let templateKeys := v.template_tree.subnodesKeys
    match (if v.template_version then
        match v.template_header.lookup templateVersionKey with
        | some (.str s) =>
          if ¬ (strContains instancePath s) then some (Except.ok false) else none
        | some _ => some (Except.error ())
        | none => some (Except.ok false)
      else none : Option (Except Unit Bool)) with
    | some r => some r
    | none =>
      if templateKeys.length > instanceKeys.length then some (Except.ok false)
      else if (v.template_tree.headersForLevel 1).length <
          (instanceTree.headersForLevel 1).length then some (Except.ok false)
      else if ¬ validate_headers isSubstitution templateKeys instanceKeys then
        some (Except.ok false)
      else none
  else none

/-- `MarkdownValidator.is_valid_against_template`
(`markdown_validator.py` lines 50-130): the three blocks in order, each
able to exit early; if none exits, the result is `True`. -/
def is_valid_against_template (v : MDValidator) (instancePath : String)
    (instanceHeader : Entries) (instanceTree : MarkdownTree) :
    Except Unit Bool :=
  match yamlHeaderBlock v instancePath instanceHeader with
  | some r => r
  | none =>
    match govHeaderBlock v instanceTree with
    | some r => r
    | none =>
      match bodyBlock v instancePath instanceTree with
      | some r => r
      | none => Except.ok true

/-- C4: with header validation and template-version checking both enabled,
`is_valid_against_template` returns `False` immediately — for any instance
header and tree, so in particular bypassing `compare_keys` — whenever the
template-version key is absent from the template header, or its value does
not occur in the instance path string, or the header has no `Version`
value, or the `Version` value differs from the template-version value; and
it returns `True` only when the key is present with a string value that
occurs in the path and equals the header's `Version` value. -/
theorem c4_template_version_gate
    (v : MDValidator) (instancePath : String) (instanceHeader : Entries)
    (instanceTree : MarkdownTree)
    (hy : v.validate_yaml_header = true) (ht : v.template_version = true) :
    (v.template_header.lookup templateVersionKey = none →
      is_valid_against_template v instancePath instanceHeader instanceTree =
        Except.ok false) ∧
    (∀ s, v.template_header.lookup templateVersionKey = some (Val.str s) →
      strContains instancePath s = false →
      is_valid_against_template v instancePath instanceHeader instanceTree =
        Except.ok false) ∧
    (∀ s, v.template_header.lookup templateVersionKey = some (Val.str s) →
      strContains instancePath s = true →
      v.template_header.lookup "Version" = none →
      is_valid_against_template v instancePath instanceHeader instanceTree =
        Except.ok false) ∧
    (∀ s w, v.template_header.lookup templateVersionKey = some (Val.str s) →
      strContains instancePath s = true →
      v.template_header.lookup "Version" = some w → w ≠ Val.str s →
      is_valid_against_template v instancePath instanceHeader instanceTree =
        Except.ok false) ∧
    (is_valid_against_template v instancePath instanceHeader instanceTree =
        Except.ok true →
      ∃ s, v.template_header.lookup templateVersionKey = some (Val.str s) ∧
        strContains instancePath s = true ∧
        v.template_header.lookup "Version" = some (Val.str s)) := by
  have hred : is_valid_against_template v instancePath instanceHeader
      instanceTree = versionCheck v instancePath := by
    simp [is_valid_against_template, yamlHeaderBlock, hy, ht]
  refine ⟨?_, ?_, ?_, ?_, ?_⟩
  · intro hnone
    rw [hred, versionCheck, hnone]
  · intro s hsome hnc
    rw [hred, versionCheck, hsome]
    simp [hnc]
  · intro s hsome hc hver
    rw [hred, versionCheck, hsome, hver]
    simp [hc]
  · intro s w hsome hc hver hne
    rw [hred, versionCheck, hsome, hver]
    simp [hc, hne]
  · intro hok
    rw [hred] at hok
    cases hsome : v.template_header.lookup templateVersionKey with
    | none =>
      simp only [versionCheck, hsome] at hok
      cases hok
    | some tv =>
      cases tv with
      | str s =>
        simp only [versionCheck, hsome] at hok
        by_cases hc : strContains instancePath s = true
        · rw [if_neg (not_not_intro hc)] at hok
          cases hver : v.template_header.lookup "Version" with
          | none =>
            simp only [hver] at hok
            cases hok
          | some w =>
            simp only [hver] at hok
            have hw : w = Val.str s := by
              have := Except.ok.inj hok
              simpa using this
            exact ⟨s, rfl, hc, by rw [hw]⟩
        · rw [if_pos hc] at hok
          cases hok
      | num n =>
        simp only [versionCheck, hsome] at hok
        cases hok
      | dict e =>
        simp only [versionCheck, hsome] at hok
        cases hok

/-- C4 witness: a concrete validator whose header declares template version
`1.0.0` but `Version` `2.0`, checked against a path containing `1.0.0`,
is rejected through the version gate. -/
theorem c4_witness :
    is_valid_against_template
      { validate_yaml_header := true, validate_md_body := true,
        md_header_to_validate := none, template_version := true,
        template_header := .cons "x-trestle-template-version" (.str "1.0.0")
          (.cons "Version" (.str "2.0") .nil),
        template_tree :=
          { govNode := fun _ => none, subnodesKeys := [],
            headersForLevel := fun _ => [] } }
      "md/1.0.0/test.md" .nil
      { govNode := fun _ => none, subnodesKeys := [],
        headersForLevel := fun _ => [] } = Except.ok false :=
  (c4_template_version_gate _ "md/1.0.0/test.md" .nil _ rfl rfl).2.2.2.1
    "1.0.0" (Val.str "2.0") (by decide) (by decide) (by decide) (by decide)

/-- C8: when a governed heading name is configured (and the YAML-header
block is disabled so control reaches the governed block), a missing
instance node for that heading yields the boolean result `False`, while a
missing template node makes the validator dereference `None` and raise,
modelled as `Except.error`. -/
theorem c8_governed_node_asymmetry
    (v : MDValidator) (instancePath : String) (instanceHeader : Entries)
    (instanceTree : MarkdownTree) (hdr : String)
    (hy : v.validate_yaml_header = false)
    (hm : v.md_header_to_validate = some hdr) :
    (instanceTree.govNode hdr = none →
      is_valid_against_template v instancePath instanceHeader instanceTree =
        Except.ok false) ∧
    (∀ ikeys, instanceTree.govNode hdr = some ikeys →
      v.template_tree.govNode hdr = none →
      is_valid_against_template v instancePath instanceHeader instanceTree =
        Except.error ()) := by
  have hblock : yamlHeaderBlock v instancePath instanceHeader = none := by
    simp [yamlHeaderBlock, hy]
  constructor
  · intro hnone
    rw [is_valid_against_template, hblock]
    simp [govHeaderBlock, hm, hnone]
  · intro ikeys hik htn
    rw [is_valid_against_template, hblock]
    simp [govHeaderBlock, hm, hik, htn]

/-- C8 witness: a concrete validator with governed heading `Gov` against
an instance tree lacking that heading returns `False`; with the instance
node present but the template node absent it raises. -/
theorem c8_witness :
    is_valid_against_template
      { validate_yaml_header := false, validate_md_body := false,
        md_header_to_validate := some "Gov", template_version := false,
        template_header := .nil,
        template_tree :=
          { govNode := fun _ => none, subnodesKeys := [],
            headersForLevel := fun _ => [] } }
      "p" .nil
      { govNode := fun _ => none, subnodesKeys := [],
        headersForLevel := fun _ => [] } = Except.ok false ∧
    is_valid_against_template
      { validate_yaml_header := false, validate_md_body := false,
        md_header_to_validate := some "Gov", template_version := false,
        template_header := .nil,
        template_tree :=
          { govNode := fun _ => none, subnodesKeys := [],
            headersForLevel := fun _ => [] } }
      "p" .nil
      { govNode := fun _ => some ["k1"], subnodesKeys := [],
        headersForLevel := fun _ => [] } = Except.error () :=
  ⟨(c8_governed_node_asymmetry _ "p" .nil _ "Gov" rfl rfl).1 rfl,
   (c8_governed_node_asymmetry _ "p" .nil
      { govNode := fun _ => some ["k1"], subnodesKeys := [],
        headersForLevel := fun _ => [] } "Gov" rfl rfl).2 ["k1"] rfl rfl⟩

/-- Modelled from the spec: a Parameter (spec section 3) — id, optional
label, optional ordered Values, optional ordered Choices.
`catalog_interface.py` and the OSCAL data model are not part of the source
set. -/
structure Parameter where
  id : String
  label : Option String
  values : Option (List String)
  choices : Option (List String)
deriving DecidableEq

/-- Modelled from the spec: a Control (spec section 3) — id, title,
ordered Parameters, narrative Parts (abstracted to their prose), and
name/value Properties. -/
structure Control where
  id : String
  title : String
  params : List Parameter
  parts : List String
  props : List (String × String)
deriving DecidableEq

/-- Modelled from the spec: the parameter reconciliation of
`CatalogInterface.merge_controls` (spec section 4.1): parameters are
matched by id preserving the base ordering, the base list is truncated to
the incoming id set (spec: base truncates to match incoming's id set), and
for a parameter present in both the incoming Values overwrite the base's
exactly when `replace_params` is true. -/
def mergeParams (base incoming : List Parameter) (replace_params : Bool) :
    List Parameter :=
  (base.filter fun p => incoming.any fun q => q.id == p.id).map fun p =>
    match incoming.find? fun q => q.id == p.id with
    | some q => if replace_params then { p with values := q.values } else p
    | none => p

/-- Modelled from the spec: `CatalogInterface.merge_controls` (spec
section 4.1) — the incoming Parts replace the base's wholesale, the
parameters are reconciled by `mergeParams`, and Properties are not altered. -/
def merge_controls (base incoming : Control) (replace_params : Bool) :
    Control :=
  { base with
    parts := incoming.parts,
    params := mergeParams base.params incoming.params replace_params }

theorem findPointwise :
    ∀ (ps qs : List Parameter) (j : Nat) (p q : Parameter),
      ps.length = qs.length →
      (∀ (k : Nat) (pk qk : Parameter),
        ps[k]? = some pk → qs[k]? = some qk → qk.id = pk.id) →
      (ps.map Parameter.id).Nodup →
      ps[j]? = some p → qs[j]? = some q →
      qs.find? (fun r => r.id == p.id) = some q
  | [], _, j, p, q, _, _, _, hp, _ => by simp at hp
  | _ :: _, [], _, _, _, hlen, _, _, _, _ => by simp at hlen
  | p0 :: pt, q0 :: qt, 0, p, q, hlen, hids, hnd, hp, hq => by
    rw [List.getElem?_cons_zero, Option.some.injEq] at hp hq
    subst hp
    subst hq
    have hid : q0.id = p0.id :=
      hids 0 p0 q0 List.getElem?_cons_zero List.getElem?_cons_zero
    exact List.find?_cons_of_pos qt (beq_iff_eq.mpr hid)
  | p0 :: pt, q0 :: qt, j + 1, p, q, hlen, hids, hnd, hp, hq => by
    rw [List.getElem?_cons_succ] at hp hq
    have hlen2 : pt.length = qt.length := by simpa using hlen
    have hids2 : ∀ (k : Nat) (pk qk : Parameter),
        pt[k]? = some pk → qt[k]? = some qk → qk.id = pk.id := by
      intro k pk qk h1 h2
      exact hids (k + 1) pk qk (by simpa using h1) (by simpa using h2)
    obtain ⟨hnotin, hnd2⟩ :
        p0.id ∉ pt.map Parameter.id ∧ (pt.map Parameter.id).Nodup := by
      simpa [List.nodup_cons] using hnd
    have hid0 : q0.id = p0.id :=
      hids 0 p0 q0 List.getElem?_cons_zero List.getElem?_cons_zero
    have hpmem : p ∈ pt := by
      obtain ⟨hlt, hEq⟩ := List.getElem?_eq_some.mp hp
      exact hEq ▸ List.getElem_mem hlt
    have hne : ¬ ((q0.id == p.id) = true) := by
      rw [hid0, beq_iff_eq]
      intro hcontra
      exact hnotin (hcontra ▸ List.mem_map_of_mem Parameter.id hpmem)
    rw [List.find?_cons_of_neg qt hne]
    exact findPointwise pt qt j p q hlen2 hids2 hnd2 hp hq

theorem mergeParams_getElem?
    (ps qs : List Parameter) (rp : Bool) (j : Nat) (p q : Parameter)
    (hlen : ps.length = qs.length)
    (hids : ∀ (k : Nat) (pk qk : Parameter),
      ps[k]? = some pk → qs[k]? = some qk → qk.id = pk.id)
    (hnd : (ps.map Parameter.id).Nodup)
    (hp : ps[j]? = some p) (hq : qs[j]? = some q) :
    (mergeParams ps qs rp)[j]? =
      some (if rp then { p with values := q.values } else p) := by
  have hfilter : ps.filter (fun r => qs.any fun s => s.id == r.id) = ps := by
    rw [List.filter_eq_self]
    intro a ha
    obtain ⟨k, hk⟩ := List.getElem?_of_mem ha
    have hklt : k < qs.length := by
      rw [← hlen]
      exact (List.getElem?_eq_some.mp hk).1
    have hqk : qs[k]? = some (qs[k]) := List.getElem?_eq_some.mpr ⟨hklt, rfl⟩
    have hid : (qs[k]).id = a.id := hids k a (qs[k]) hk hqk
    rw [List.any_eq_true]
    exact ⟨qs[k], List.getElem_mem hklt, beq_iff_eq.mpr hid⟩
  rw [mergeParams, hfilter, List.getElem?_map, hp, Option.map_some',
    findPointwise ps qs j p q hlen hids hnd hp hq]

theorem mergeParams_length_of_prefix
    (base inc : List Parameter) (rp : Bool)
    (hnd : (base.map Parameter.id).Nodup) (hpre : inc <+: base) :
    (mergeParams base inc rp).length = inc.length := by
  obtain ⟨t, ht⟩ := hpre
  subst ht
  rw [mergeParams, List.length_map, List.filter_append]
  have h1 : inc.filter (fun r => inc.any fun s => s.id == r.id) = inc := by
    rw [List.filter_eq_self]
    intro a ha
    rw [List.any_eq_true]
    exact ⟨a, ha, beq_iff_eq.mpr rfl⟩
  have hdisj : (inc.map Parameter.id).Disjoint (t.map Parameter.id) := by
    rw [List.map_append, List.nodup_append] at hnd
    exact hnd.2.2
  have h2 : t.filter (fun r => inc.any fun s => s.id == r.id) = [] := by
    rw [List.filter_eq_nil_iff]
    intro a ha hany
    rw [List.any_eq_true] at hany
    obtain ⟨s, hs, hbeq⟩ := hany
    have hsid : s.id = a.id := beq_iff_eq.mp hbeq
    exact hdisj (List.mem_map_of_mem Parameter.id hs)
      (hsid ▸ List.mem_map_of_mem Parameter.id ha)
  rw [h1, h2, List.append_nil]

/-- C6: for two Controls differing only in the Values of the parameter at
position `i` (same ids positionwise, unique ids), merging with
`replace_params` true makes the base parameter carry the incoming Values,
while merging with `replace_params` false keeps the base Values; and
whenever the incoming parameter list is a strict prefix of the base's, the
merged parameter list has the incoming list's length for either value of
`replace_params`. -/
theorem c6_merge_controls_params
    (a b : Control) (i : Nat) (p q : Parameter)
    (hlen : a.params.length = b.params.length)
    (hp : a.params[i]? = some p) (hq : b.params[i]? = some q)
    (hsame : ∀ j, j ≠ i → b.params[j]? = a.params[j]?)
    (honly : q = { p with values := q.values })
    (hnd : (a.params.map Parameter.id).Nodup) :
    (merge_controls a b true).params[i]? =
      some { p with values := q.values } ∧
    (merge_controls a b false).params[i]? = some p ∧
    ∀ (a2 b2 : Control) (rp : Bool),
      (a2.params.map Parameter.id).Nodup →
      b2.params <+: a2.params → b2.params.length < a2.params.length →
      (merge_controls a2 b2 rp).params.length = b2.params.length := by
  have hids : ∀ (k : Nat) (pk qk : Parameter),
      a.params[k]? = some pk → b.params[k]? = some qk → qk.id = pk.id := by
    intro k pk qk h1 h2
    by_cases hk : k = i
    · subst hk
      have hpk : pk = p := Option.some.inj (h1.symm.trans hp)
      have hqk : qk = q := Option.some.inj (h2.symm.trans hq)
      subst hpk
      subst hqk
      rw [honly]
    · rw [hsame k hk, h1, Option.some.injEq] at h2
      rw [h2]
  refine ⟨?_, ?_, ?_⟩
  · have h := mergeParams_getElem? a.params b.params true i p q hlen hids hnd hp hq
    simpa [merge_controls] using h
  · have h := mergeParams_getElem? a.params b.params false i p q hlen hids hnd hp hq
    simpa [merge_controls] using h
  · intro a2 b2 rp hnd2 hpre hlt
    rw [show (merge_controls a2 b2 rp).params =
      mergeParams a2.params b2.params rp from rfl]
    exact mergeParams_length_of_prefix a2.params b2.params rp hnd2 hpre

/-- A concrete parameter for the merge example. -/
def paramZero : Parameter :=
  { id := "param_0", label := none, values := some ["param_0_val"],
    choices := none }

/-- A second concrete parameter for the merge example. -/
def paramOne : Parameter :=
  { id := "param_1", label := none, values := some ["param_1_val"],
    choices := none }

/-- `paramZero` with its Values edited, as in the merge test. -/
def paramZeroNew : Parameter :=
  { id := "param_0", label := none, values := some ["new value"],
    choices := none }

/-- The base control of the merge example. -/
def controlA : Control :=
  { id := "control_a", title := "Control A", params := [paramZero, paramOne],
    parts := ["part a"], props := [] }

/-- The edited control: only `paramZero`'s Values differ. -/
def controlB : Control :=
  { id := "control_a", title := "Control A",
    params := [paramZeroNew, paramOne], parts := ["part a"], props := [] }

/-- The edited control truncated to its first parameter. -/
def controlBTrunc : Control :=
  { id := "control_a", title := "Control A", params := [paramZero],
    parts := ["part a"], props := [] }

/-- C6 witness: the merge theorem applied to the concrete controls of the
test scenario. -/
theorem c6_witness :
    (merge_controls controlA controlB true).params[0]? = some paramZeroNew ∧
    (merge_controls controlA controlB false).params[0]? = some paramZero ∧
    (merge_controls controlA controlBTrunc true).params.length = 1 := by
  have h := c6_merge_controls_params controlA controlB 0 paramZero paramZeroNew
    (by decide) (by decide) (by decide)
    (by
      intro j hj
      cases j with
      | zero => exact absurd rfl hj
      | succ n =>
        cases n with
        | zero => decide
        | succ m => simp [controlA, controlB])
    (by decide) (by decide)
  exact ⟨h.1, h.2.1,
    h.2.2 controlA controlBTrunc true (by decide) ⟨[paramOne], rfl⟩ (by decide)⟩

/-- Modelled from the spec: the rendering of a choice list as a set for
display (spec section 4.2, fallback step 3). -/
def renderChoiceSet (cs : List String) : String :=
  "\x7b" ++ String.intercalate ", " cs ++ "\x7d"

/-- Modelled from the spec: `ControlIOReader.param_to_str` under the
value-or-label-or-choices representation (spec section 4.2; `control_io.py`
is not part of the source set): explicit Values joined with the configured
separator when present, else the Label when present, else the Choices
rendered as a set, else the literal parameter id.  Presence of Values and
Choices follows Python truthiness: an empty list counts as absent. -/
def param_to_str (p : Parameter) (sep : String) : String :=
  match p.values with
  | some (v :: vs) => String.intercalate sep (v :: vs)
  | _ =>
    match p.label with
    | some l => l
    | none =>
      match p.choices with
      | some (c :: cs) => renderChoiceSet (c :: cs)
      | _ => p.id

/-- C7: the display representation of a parameter follows the strictly
ordered fallback values, then label, then choices, then id; in particular a
parameter with a Label and no Values renders as its label. -/
theorem c7_param_display_fallback (p : Parameter) (sep : String) :
    (∀ v vs, p.values = some (v :: vs) →
      param_to_str p sep = String.intercalate sep (v :: vs)) ∧
    ((p.values = none ∨ p.values = some []) → ∀ l, p.label = some l →
      param_to_str p sep = l) ∧
    ((p.values = none ∨ p.values = some []) → p.label = none →
      ∀ c cs, p.choices = some (c :: cs) →
      param_to_str p sep = renderChoiceSet (c :: cs)) ∧
    ((p.values = none ∨ p.values = some []) → p.label = none →
      (p.choices = none ∨ p.choices = some []) →
      param_to_str p sep = p.id) := by
  refine ⟨?_, ?_, ?_, ?_⟩
  · intro v vs hv
    simp [param_to_str, hv]
  · intro hv l hl
    rcases hv with hv | hv <;> simp [param_to_str, hv, hl]
  · intro hv hl c cs hc
    rcases hv with hv | hv <;> simp [param_to_str, hv, hl, hc]
  · intro hv hl hc
    rcases hv with hv | hv <;> rcases hc with hc | hc <;>
      simp [param_to_str, hv, hl, hc]

/-- C7 witness: the fallback applied to the concrete parameters of the
test scenario: a parameter with Label `organization-defined events` and no
Values renders as that label, and one with only Choices renders as the
choice set. -/
theorem c7_witness :
    param_to_str
      { id := "ac-1_prm_7", label := some "organization-defined events",
        values := none, choices := none } ", " =
      "organization-defined events" ∧
    param_to_str
      { id := "ac-1_prm_6", label := none, values := none,
        choices := some ["monthly", "quarterly"] } ", " =
      renderChoiceSet ["monthly", "quarterly"] :=
  ⟨(c7_param_display_fallback
      { id := "ac-1_prm_7", label := some "organization-defined events",
        values := none, choices := none } ", ").2.1
      (Or.inl rfl) "organization-defined events" rfl,
   (c7_param_display_fallback
      { id := "ac-1_prm_6", label := none, values := none,
        choices := some ["monthly", "quarterly"] } ", ").2.2.1
      (Or.inl rfl) rfl "monthly" ["quarterly"] rfl⟩

/-- The outcome of a trestle task: only its name matters here
(`base_task.TaskOutcome`). -/
structure TaskOutcome where
  name : String
deriving DecidableEq

/-- The possible results of `XccdfResultToOscalAR._transform_work`
(`xccdf_result_to_oscal_ar.py` lines 128-192), abstracted over the
configuration and file-system environment: every explicit return in the
work function is `TaskOutcome(mode + 'failure')` except the final
`TaskOutcome(mode + 'success')`, and any step may raise an exception. -/
inductive WorkResult where
  | raised : WorkResult
  | failed : WorkResult
  | succeeded : WorkResult

/-- The mode string of `_transform` and `_transform_work`: the prefix
`simulated-` in simulate mode, empty otherwise. -/
def modeStr (simulateMode : Bool) : String :=
  if simulateMode then "simulated-" else ""

/-- `_transform_work` restricted to its outcome interface (see
`WorkResult`). -/
def transformWork (simulateMode : Bool) (w : WorkResult) :
    Except Unit TaskOutcome :=
  match w with
  | .raised => Except.error ()
  | .failed => Except.ok ⟨modeStr simulateMode ++ "failure"⟩
  | .succeeded => Except.ok ⟨modeStr simulateMode ++ "success"⟩

/-- `XccdfResultToOscalAR._transform` (`xccdf_result_to_oscal_ar.py` lines
117-126): run the work and catch every exception, converting it into
`TaskOutcome(mode + 'failure')`.  The total return type shows no exception
escapes. -/
def transform (simulateMode : Bool) (w : WorkResult) : TaskOutcome :=
  match transformWork simulateMode w with
  | Except.ok o => o
  | Except.error _ => ⟨modeStr simulateMode ++ "failure"⟩

/-- `XccdfResultToOscalAR.execute` (lines 112-115): sets simulate mode off
and runs `_transform`. -/
def execute (w : WorkResult) : TaskOutcome :=
  transform false w

/-- `XccdfResultToOscalAR.simulate` (lines 107-110): sets simulate mode on
and runs `_transform`. -/
def simulate (w : WorkResult) : TaskOutcome :=
  transform true w

/-- C10: `execute` and `simulate` always return a plain outcome (the
embedding's total return type mirrors the catch-all `except` in
`_transform`): the name is always `failure` or `success` (with the
`simulated-` prefix in simulate mode); an exception during the work turns
into `failure` or `simulated-failure`, and a completed run returns
`success` or `simulated-success`. -/
theorem c10_task_outcome_shape :
    (∀ w, execute w = ⟨"failure"⟩ ∨ execute w = ⟨"success"⟩) ∧
    (∀ w, simulate w = ⟨"simulated-failure"⟩ ∨
      simulate w = ⟨"simulated-success"⟩) ∧
    execute WorkResult.raised = ⟨"failure"⟩ ∧
    simulate WorkResult.raised = ⟨"simulated-failure"⟩ ∧
    execute WorkResult.succeeded = ⟨"success"⟩ ∧
    simulate WorkResult.succeeded = ⟨"simulated-success"⟩ := by
  refine ⟨fun w => ?_, fun w => ?_, by decide, by decide, by decide, by decide⟩
  · cases w
    · exact Or.inl (by decide)
    · exact Or.inl (by decide)
    · exact Or.inr (by decide)
  · cases w
    · exact Or.inl (by decide)
    · exact Or.inl (by decide)
    · exact Or.inr (by decide)
